import Mathlib

/-!
Verification of the IP-based attendance system: decision engine,
duplicate suppression, and dual-store (Excel/JSON) persistence.

The definitions below are a shallow embedding of `server.js` (route
`POST /api/attendance/mark`, route `GET /api/attendance/records`) and of
the document-store module `db.js` (`loadDb`, `addAttendance`,
`getAttendanceForStudent`, `setExpectedIp`, `getExpectedIp`,
`getAllAttendance`).  Machine timestamps are modelled at second
granularity as seconds since the Unix epoch; the server's local timezone
is an explicit offset in minutes from UTC.  File-system failure is
modelled by explicit success flags / file-state constructors.
-/

namespace IPAttendance

/-! ## Document store data model (db.js) -/

/-- One entry of the `users` map of `db.json`:
`db.users[studentId] = { expectedIp, updatedAt }`. -/
structure UserEntry where
  expectedIp : String
  updatedAt : String
deriving DecidableEq, Repr

/-- One attendance record as pushed into `db.attendance` by the mark route:
`{ timestamp, student_id, student_name, status, clientIp, allowedIp,
isPrivate, proxy, reason }`. -/
structure AttRec where
  timestamp : String
  student_id : String
  student_name : String
  status : String
  clientIp : String
  allowedIp : Option String
  isPrivate : Bool
  proxy : Bool
  reason : Option String
deriving DecidableEq, Repr

/-- The parsed content of `db.json`: a `users` object (modelled as a map
from key to optional entry, matching JavaScript object lookup) and an
`attendance` array. -/
structure Db where
  users : String → Option UserEntry
  attendance : List AttRec

/-- The empty database structure `{ users: {}, attendance: [] }`. -/
def emptyDb : Db := ⟨fun _ => none, []⟩

/-- State of the `db.json` backing file as seen by `loadDb`:
missing, present but not valid JSON, or parsed content. -/
inductive DbFileState
  | missing
  | unparseable
  | parsed (db : Db)

/-- `loadDb` from db.js.  A missing file is initialized to the empty
structure; a read/parse error is caught and the empty structure is
returned; otherwise the parsed content is returned.  The function is
total: no input makes it fail. -/
def loadDb : DbFileState → Db
  | .missing => emptyDb
  | .unparseable => emptyDb
  | .parsed db => db

/-- `addAttendance` from db.js: `db.attendance.push(record)` then save. -/
def addAttendance (db : Db) (r : AttRec) : Db :=
  { db with attendance := db.attendance ++ [r] }

/-- `getAttendanceForStudent` from db.js:
`db.attendance.filter(record => record.student_id === studentId)`. -/
def getAttendanceForStudent (db : Db) (sid : String) : List AttRec :=
  db.attendance.filter (fun r => r.student_id == sid)

/-- `setExpectedIp` from db.js:
`db.users[studentId] = { expectedIp, updatedAt: new Date().toISOString() }`.
The entry is overwritten entirely (last-write-wins). -/
def setExpectedIp (db : Db) (sid ip now : String) : Db :=
  { db with users := fun k => if k = sid then some ⟨ip, now⟩ else db.users k }

/-- `getExpectedIp` from db.js: `db.users[studentId].expectedIp || null`
(an empty string is falsy in JavaScript, hence mapped to `none`). -/
def getExpectedIp (db : Db) (sid : String) : Option String :=
  match db.users sid with
  | none => none
  | some e => if e.expectedIp = "" then none else some e.expectedIp

/-- `getAllAttendance` from db.js: `db.attendance || []`. -/
def getAllAttendance (db : Db) : List AttRec :=
  db.attendance

/-! ## Calendar arithmetic (the model of the JavaScript `Date` object)

`civilFromDays` is the standard civil-calendar algorithm converting a
day count since 1970-01-01 into a Gregorian date; `daysFromCivil` is its
converse.  They model `Date.prototype.toISOString` and ISO-string
parsing by `new Date(string)` for the post-epoch range the system
operates in (years 1970–9999). -/

/-- Days since 1970-01-01 to `(year, month, day)` (proleptic Gregorian). -/
def civilFromDays (z : Nat) : Nat × Nat × Nat :=
  let z' := z + 719468
  let era := z' / 146097
  let doe := z' % 146097
  let yoe := (doe - doe / 1460 + doe / 36524 - doe / 146096) / 365
  let y := yoe + era * 400
  let doy := doe - (365 * yoe + yoe / 4 - yoe / 100)
  let mp := (5 * doy + 2) / 153
  let d := doy - (153 * mp + 2) / 5 + 1
  let m := if mp < 10 then mp + 3 else mp - 9
  (if m ≤ 2 then y + 1 else y, m, d)

/-- `(year, month, day)` to days since 1970-01-01, for dates from
1970-01-01 on (the range of timestamps this system produces). -/
def daysFromCivil (y m d : Nat) : Nat :=
  let y' := if m ≤ 2 then y - 1 else y
  let era := y' / 400
  let yoe := y' % 400
  let mp := if 2 < m then m - 3 else m + 9
  let doy := (153 * mp + 2) / 5 + d - 1
  let doe := yoe * 365 + yoe / 4 - yoe / 100 + doy
  era * 146097 + doe - 719468

/-- Zero-pad a number to two digits, as the formatting the code relies on. -/
def pad2 (n : Nat) : String :=
  if n < 10 then "0" ++ toString n else toString n

/-- Zero-pad a year to four digits (`toISOString` year field). -/
def pad4 (n : Nat) : String :=
  if n < 10 then "000" ++ toString n
  else if n < 100 then "00" ++ toString n
  else if n < 1000 then "0" ++ toString n
  else toString n

/-- The `YYYY-MM-DD` UTC calendar-date component of an instant:
`date.toISOString().slice(0, 10)` / `.split('T')[0]`. -/
def isoDate (t : Nat) : String :=
  match civilFromDays (t / 86400) with
  | (y, m, d) => pad4 y ++ "-" ++ pad2 m ++ "-" ++ pad2 d

/-- Render a second-of-day count as `HH:MM:SS`. -/
def timeOfDayStr (s : Nat) : String :=
  pad2 (s / 3600) ++ ":" ++ pad2 (s % 3600 / 60) ++ ":" ++ pad2 (s % 60)

/-- `date.toLocaleTimeString('en-US', {hour12:false, 2-digit fields})`:
the time of day of instant `t` rendered in the server's local timezone,
`off` minutes ahead of UTC. -/
def localTimeStr (t : Nat) (off : Int) : String :=
  timeOfDayStr (((t : Int) + off * 60) % 86400).toNat

/-- `date.toISOString()` at second granularity (the system's stored
timestamps; sub-second digits are rendered as a constant field here). -/
def isoDateTime (t : Nat) : String :=
  isoDate t ++ "T" ++ timeOfDayStr (t % 86400) ++ ".000Z"

/-- Leap-year test of the Gregorian calendar. -/
def isLeapYear (y : Nat) : Bool :=
  (y % 4 = 0 && y % 100 ≠ 0) || y % 400 = 0

/-- Number of days of month `m` of year `y`. -/
def daysInMonth (y m : Nat) : Nat :=
  if m = 2 then (if isLeapYear y then 29 else 28)
  else if m = 4 ∨ m = 6 ∨ m = 9 ∨ m = 11 then 30 else 31

/-- Numeric value of a decimal digit character. -/
def digitVal (c : Char) : Option Nat :=
  if c.isDigit then some (c.toNat - 48) else none

/-- Parse a fixed-width decimal digit run. -/
def parseDigits (cs : List Char) : Option Nat :=
  cs.foldl
    (fun acc c =>
      match acc, digitVal c with
      | some n, some d => some (n * 10 + d)
      | _, _ => none)
    (some 0)

/-- `new Date(s)` followed by the `isNaN(getTime())` validity check, for
strings of the exact shape `toISOString` produces
(`YYYY-MM-DDTHH:MM:SS.mmmZ`): returns the epoch second of a valid
post-epoch ISO timestamp, and `none` for anything that JavaScript would
treat as an invalid date (the embedding covers the system's operating
range, years 1970–9999). -/
def parseIso (s : String) : Option Nat :=
  let cs := s.toList
  if cs.length = 24 then
    match parseDigits (cs.take 4), parseDigits ((cs.drop 5).take 2),
        parseDigits ((cs.drop 8).take 2), parseDigits ((cs.drop 11).take 2),
        parseDigits ((cs.drop 14).take 2), parseDigits ((cs.drop 17).take 2),
        parseDigits ((cs.drop 20).take 3) with
    | some y, some m, some d, some h, some mi, some sec, some _ =>
      if cs[4]? = some '-' && cs[7]? = some '-' && cs[10]? = some 'T' &&
          cs[13]? = some ':' && cs[16]? = some ':' && cs[19]? = some '.' &&
          cs[23]? = some 'Z' &&
          1970 ≤ y && y ≤ 9999 && 1 ≤ m && m ≤ 12 &&
          1 ≤ d && d ≤ daysInMonth y m && h ≤ 23 && mi ≤ 59 && sec ≤ 59 then
        some (daysFromCivil y m d * 86400 + h * 3600 + mi * 60 + sec)
      else none
    | _, _, _, _, _, _, _ => none
  else none

/-! ## Tabular (Excel) store model

`attendance.xlsx` with its single `Attendance` worksheet, modelled as the
list of its rows (row 1 is the header when present). -/

/-- The header row written on worksheet creation, in the exact declared
column order. -/
def excelHeader : List String :=
  ["ID", "Name", "Date", "Time", "IP Address", "Status"]

/-- State of the `attendance.xlsx` backing file: absent, present but not
parseable as a workbook, parseable but with no worksheet (so neither the
named `Attendance` lookup nor the first-worksheet fallback finds one), or
holding the `Attendance` worksheet's rows. -/
inductive ExcelState
  | absent
  | corrupted
  | missingSheet
  | sheet (rows : List (List String))
deriving DecidableEq, Repr

/-- The Excel-save block of the mark route: try to load the workbook and
locate the `Attendance` worksheet; on any failure create the worksheet
with the header row; in every case `worksheet.addRow` appends the one
data row, and the workbook is written back. -/
def excelSave (e : ExcelState) (row : List String) : ExcelState :=
  match e with
  | .sheet rows => .sheet (rows ++ [row])
  | _ => .sheet [excelHeader, row]

/-- One entry of the array returned by `GET /api/attendance/records`. -/
structure ExcelRecord where
  id : String
  name : String
  date : String
  time : String
  ip : String
  status : String
deriving DecidableEq, Repr

/-- `String.prototype.trim()`: strip leading and trailing whitespace
(modelled over the ASCII whitespace characters the system's strings can
contain). -/
def jsTrim (s : String) : String :=
  ⟨((s.toList.dropWhile Char.isWhitespace).reverse.dropWhile
      Char.isWhitespace).reverse⟩

/-- Cell extraction of the records route:
`values[i] ? String(values[i]).trim() : ''` (a missing or empty cell is
falsy and yields the empty string; anything else is trimmed).  `ExcelJS`
row values are 1-indexed; the model's rows are 0-indexed lists. -/
def readCell (vs : List String) (i : Nat) : String :=
  match vs[i]? with
  | some s => if s = "" then "" else jsTrim s
  | none => ""

/-- Parse one data row of the worksheet; the row is kept only if at
least one of ID and Name is non-empty (defensive skip). -/
def parseRow (vs : List String) : Option ExcelRecord :=
  let id := readCell vs 0
  let name := readCell vs 1
  if id ≠ "" ∨ name ≠ "" then
    some ⟨id, name, readCell vs 2, readCell vs 3, readCell vs 4, readCell vs 5⟩
  else none

/-- `sheet.eachRow`: skip row number 1 (the header), parse the rest. -/
def parseSheet (rows : List (List String)) : List ExcelRecord :=
  (rows.drop 1).filterMap parseRow

/-- The JSON-DB fallback mapping of the records route: parse the stored
ISO timestamp; if valid, re-derive `date` as `toISOString().split('T')[0]`
(UTC) and `time` as the en-US local-time rendering; if invalid, leave
both empty.  `off` is the server's timezone offset in minutes. -/
def fallbackEntry (off : Int) (r : AttRec) : ExcelRecord :=
  match parseIso r.timestamp with
  | some t => ⟨r.student_id, r.student_name, isoDate t, localTimeStr t off,
      r.clientIp, r.status⟩
  | none => ⟨r.student_id, r.student_name, "", "", r.clientIp, r.status⟩

/-- `GET /api/attendance/records` (the authorized path): if the Excel
file does not exist, the record list stays empty (the `existsSync` guard
means no exception is thrown, so the JSON-DB fallback is *not* reached);
if reading the file throws (corrupted content), the catch block builds
the list from `db.getAllAttendance()`; a parseable workbook with no
worksheet yields the empty list; otherwise the worksheet rows are
parsed. -/
def getRecords (e : ExcelState) (db : Db) (off : Int) : List ExcelRecord :=
  match e with
  | .absent => []
  | .corrupted => (getAllAttendance db).map (fallbackEntry off)
  | .missingSheet => []
  | .sheet rows => parseSheet rows

/-! ## Decision engine (server.js) -/

/-- `String.prototype.startsWith(p)`. -/
def jsStartsWith (s p : String) : Bool :=
  p.toList.isPrefixOf s.toList

/-- `isPrivateIp` from server.js. -/
def isPrivateIp (ip : String) : Bool :=
  if ip = "" then false
  else
    jsStartsWith ip "10." || jsStartsWith ip "192.168." ||
    jsStartsWith ip "172.16." || jsStartsWith ip "172.17." ||
    jsStartsWith ip "172.18." || jsStartsWith ip "172.19." ||
    jsStartsWith ip "172.20." || jsStartsWith ip "172.21." ||
    jsStartsWith ip "172.22." || jsStartsWith ip "172.23." ||
    jsStartsWith ip "172.24." || jsStartsWith ip "172.25." ||
    jsStartsWith ip "172.26." || jsStartsWith ip "172.27." ||
    jsStartsWith ip "172.28." || jsStartsWith ip "172.29." ||
    jsStartsWith ip "172.30." || jsStartsWith ip "172.31." ||
    ip == "127.0.0.1" || ip == "localhost"

/-- The attendance-logic block of the mark route, a pure function of the
observed address, the private-address flag and the expected address
(`""` models a falsy/absent expected address).  Returns
`(status, reason)`. -/
def attendanceDecision (clientIp allowedIp : String) (isPriv : Bool) :
    String × String :=
  if isPriv then ("Absent", "private_ip")
  else if allowedIp = "" then ("Absent", "missing_expected_ip")
  else if clientIp = allowedIp then ("Present", "ip_matched")
  else ("Absent", "ip_mismatch")

/-- `db.getExpectedIp(student_id) || ALLOWED_IP || ''` — the per-student
registry entry, else the process-wide default (`envIp`, itself `""` when
unset). -/
def allowedIpOf (db : Db) (sid envIp : String) : String :=
  match getExpectedIp db sid with
  | some ip => ip
  | none => envIp

/-- The decision the mark route computes for a submission. -/
def markDecision (db : Db) (sid clientIp envIp : String) : String × String :=
  attendanceDecision clientIp (allowedIpOf db sid envIp) (isPrivateIp clientIp)

/-! ## The mark route (POST /api/attendance/mark) -/

/-- The JSON body (plus HTTP status code) the mark route sends.  The
fields are exactly those the route ever places in a response; `none`
means the field is absent from the JSON object. -/
structure JsonResponse where
  httpStatus : Nat
  message : String
  success : Bool
  alreadyMarked : Option Bool := none
  status : Option String := none
  clientIp : Option String := none
  expectedIp : Option (Option String) := none
  isPrivate : Option Bool := none
  proxy : Option Bool := none
  reason : Option (Option String) := none
deriving DecidableEq, Repr

/-- A 400 validation/extraction rejection. -/
def badRequestResp (msg : String) : JsonResponse :=
  { httpStatus := 400, message := msg, success := false }

/-- The 500 response of the JSON-database catch block. -/
def dbErrorResp : JsonResponse :=
  { httpStatus := 500,
    message := "Server error saving attendance to database.",
    success := false }

/-- The duplicate-suppression response: the existing record's timestamp
is surfaced in the message, with `alreadyMarked: true`. -/
def alreadyMarkedResp (ts : String) : JsonResponse :=
  { httpStatus := 200,
    message := "Already marked present today (" ++ ts ++ ").",
    success := true,
    alreadyMarked := some true,
    status := some "Present" }

/-- The success response of the mark route. -/
def successResp (status reason clientIp allowedIp : String)
    (isPriv proxy : Bool) : JsonResponse :=
  { httpStatus := 200,
    message :=
      if status = "Present" then
        "Successfully marked Present (IP matched: " ++ clientIp ++ ")."
      else
        "Marked Absent (IP " ++ clientIp ++ " does not match expected IP " ++
          (if allowedIp = "" then "(none)" else allowedIp) ++ ").",
    success := true,
    status := some status,
    clientIp := some clientIp,
    expectedIp := some (if allowedIp = "" then none else some allowedIp),
    isPrivate := some isPriv,
    proxy := some proxy,
    reason := some (some reason) }

/-- The record object pushed into the JSON database by the mark route. -/
def attRecordOf (now : Nat) (sid name status clientIp allowedIp : String)
    (isPriv proxy : Bool) (reason : String) : AttRec :=
  { timestamp := isoDateTime now,
    student_id := sid,
    student_name := name,
    status := status,
    clientIp := clientIp,
    allowedIp := if allowedIp = "" then none else some allowedIp,
    isPrivate := isPriv,
    proxy := proxy,
    reason := some reason }

/-- The duplicate check of the mark route:
`attendanceToday.find(r => (r.timestamp || '').slice(0,10) === today && r.status === 'Present')`
over `db.getAttendanceForStudent(student_id)`. -/
def dupPresentToday (db : Db) (sid today : String) : Option AttRec :=
  (getAttendanceForStudent db sid).find?
    (fun r => r.timestamp.take 10 == today && r.status == "Present")

/-- Boolean form of the suppression condition
`alreadyMarkedPresent && status === 'Present'`. -/
def suppressedB (db : Db) (sid : String) (now : Nat) (status : String) : Bool :=
  (dupPresentToday db sid (isoDate now)).isSome && status == "Present"

/-- The outcome of one mark-route invocation: the HTTP response and the
post-state of both stores. -/
structure MarkResult where
  response : JsonResponse
  db : Db
  excel : ExcelState

/-- The persistence tail of the mark route (Excel save, then JSON save,
then the success response).  `excelOk`/`jsonOk` model whether the
respective file write succeeds.  An Excel failure is caught and only
logged; a JSON failure produces the 500 response with the document store
unchanged. -/
def markPersist (sid name clientIp : String) (proxy : Bool)
    (allowedIp status reason : String) (isPriv : Bool)
    (db : Db) (excel : ExcelState) (now : Nat) (off : Int)
    (excelOk jsonOk : Bool) : MarkResult :=
  let row := [sid, name, isoDate now, localTimeStr now off, clientIp, status]
  let excel2 := if excelOk then excelSave excel row else excel
  if jsonOk then
    ⟨successResp status reason clientIp allowedIp isPriv proxy,
      addAttendance db (attRecordOf now sid name status clientIp allowedIp isPriv proxy reason),
      excel2⟩
  else
    ⟨dbErrorResp, db, excel2⟩

/-- `POST /api/attendance/mark`: validation, decision, duplicate
suppression, then persistence.  `clientIp` is the already-extracted
client address (`""` models extraction failure), `envIp` the
`ALLOWED_WIFI_IP` default (`""` when unset), `now` the decision instant,
`off` the server's timezone offset in minutes. -/
def markAttendance (sid name clientIp : String) (proxy : Bool) (envIp : String)
    (db : Db) (excel : ExcelState) (now : Nat) (off : Int)
    (excelOk jsonOk : Bool) : MarkResult :=
  if sid = "" ∨ name = "" then
    ⟨badRequestResp "Student ID and name are required.", db, excel⟩
  else if clientIp = "" then
    ⟨badRequestResp "Could not determine your IP address.", db, excel⟩
  else
    let allowedIp := allowedIpOf db sid envIp
    let dec := attendanceDecision clientIp allowedIp (isPrivateIp clientIp)
    match dupPresentToday db sid (isoDate now) with
    | some r =>
      if dec.1 = "Present" then
        ⟨alreadyMarkedResp r.timestamp, db, excel⟩
      else
        markPersist sid name clientIp proxy allowedIp dec.1 dec.2
          (isPrivateIp clientIp) db excel now off excelOk jsonOk
    | none =>
      markPersist sid name clientIp proxy allowedIp dec.1 dec.2
        (isPrivateIp clientIp) db excel now off excelOk jsonOk

/-! ## Helper lemmas -/

lemma markPersist_response (sid name clientIp : String) (proxy : Bool)
    (allowedIp status reason : String) (isPriv : Bool) (db : Db)
    (excel : ExcelState) (now : Nat) (off : Int) (excelOk jsonOk : Bool) :
    (markPersist sid name clientIp proxy allowedIp status reason isPriv db
        excel now off excelOk jsonOk).response
      = if jsonOk then successResp status reason clientIp allowedIp isPriv proxy
        else dbErrorResp := by
  cases jsonOk <;> simp [markPersist]

lemma markPersist_db (sid name clientIp : String) (proxy : Bool)
    (allowedIp status reason : String) (isPriv : Bool) (db : Db)
    (excel : ExcelState) (now : Nat) (off : Int) (excelOk jsonOk : Bool) :
    (markPersist sid name clientIp proxy allowedIp status reason isPriv db
        excel now off excelOk jsonOk).db
      = if jsonOk then
          addAttendance db
            (attRecordOf now sid name status clientIp allowedIp isPriv proxy reason)
        else db := by
  cases jsonOk <;> simp [markPersist]

lemma markPersist_excel (sid name clientIp : String) (proxy : Bool)
    (allowedIp status reason : String) (isPriv : Bool) (db : Db)
    (excel : ExcelState) (now : Nat) (off : Int) (excelOk jsonOk : Bool) :
    (markPersist sid name clientIp proxy allowedIp status reason isPriv db
        excel now off excelOk jsonOk).excel
      = if excelOk then
          excelSave excel [sid, name, isoDate now, localTimeStr now off, clientIp, status]
        else excel := by
  cases jsonOk <;> cases excelOk <;> simp [markPersist]

lemma markAttendance_eq_persist (sid name clientIp : String) (proxy : Bool)
    (envIp : String) (db : Db) (excel : ExcelState) (now : Nat) (off : Int)
    (excelOk jsonOk : Bool)
    (hsid : sid ≠ "") (hname : name ≠ "") (hip : clientIp ≠ "")
    (hns : suppressedB db sid now (markDecision db sid clientIp envIp).1 = false) :
    markAttendance sid name clientIp proxy envIp db excel now off excelOk jsonOk
      = markPersist sid name clientIp proxy (allowedIpOf db sid envIp)
          (markDecision db sid clientIp envIp).1
          (markDecision db sid clientIp envIp).2
          (isPrivateIp clientIp) db excel now off excelOk jsonOk := by
  unfold markAttendance
  rw [if_neg (by simp [hsid, hname]), if_neg hip]
  cases hfind : dupPresentToday db sid (isoDate now) with
  | none => simp [hfind, markDecision]
  | some r =>
    have hstat : ¬ (markDecision db sid clientIp envIp).1 = "Present" := by
      intro h
      rw [suppressedB, hfind] at hns
      simp [h] at hns
    simp only [hfind]
    rw [if_neg (by simpa [markDecision] using hstat)]
    rfl

lemma markAttendance_suppressed_eq (sid name clientIp : String) (proxy : Bool)
    (envIp : String) (db : Db) (excel : ExcelState) (now : Nat) (off : Int)
    (excelOk jsonOk : Bool) (r : AttRec)
    (hsid : sid ≠ "") (hname : name ≠ "") (hip : clientIp ≠ "")
    (hfind : dupPresentToday db sid (isoDate now) = some r)
    (hpres : (markDecision db sid clientIp envIp).1 = "Present") :
    markAttendance sid name clientIp proxy envIp db excel now off excelOk jsonOk
      = ⟨alreadyMarkedResp r.timestamp, db, excel⟩ := by
  unfold markAttendance
  rw [if_neg (by simp [hsid, hname]), if_neg hip]
  simp only [hfind]
  rw [if_pos (by simpa [markDecision] using hpres)]

lemma dupPresentToday_some_facts (db : Db) (sid today : String) (r : AttRec)
    (h : dupPresentToday db sid today = some r) :
    r ∈ db.attendance ∧ r.student_id = sid ∧
      r.timestamp.take 10 = today ∧ r.status = "Present" := by
  unfold dupPresentToday getAttendanceForStudent at h
  have hmem := List.mem_of_find?_eq_some h
  have hp := List.find?_some h
  rw [List.mem_filter] at hmem
  refine ⟨hmem.1, by simpa using hmem.2, ?_, ?_⟩
  · have := (Bool.and_eq_true _ _).mp hp |>.1
    simpa using this
  · have := (Bool.and_eq_true _ _).mp hp |>.2
    simpa using this

lemma dupPresentToday_isSome_iff (db : Db) (sid today : String) :
    (dupPresentToday db sid today).isSome = true ↔
      ∃ r ∈ db.attendance, r.student_id = sid ∧
        r.timestamp.take 10 = today ∧ r.status = "Present" := by
  unfold dupPresentToday getAttendanceForStudent
  rw [List.find?_isSome]
  constructor
  · rintro ⟨r, hr, hp⟩
    rw [List.mem_filter] at hr
    refine ⟨r, hr.1, by simpa using hr.2, ?_, ?_⟩
    · have := (Bool.and_eq_true _ _).mp hp |>.1
      simpa using this
    · have := (Bool.and_eq_true _ _).mp hp |>.2
      simpa using this
  · rintro ⟨r, hr, hsid', htake, hstat⟩
    exact ⟨r, List.mem_filter.mpr ⟨hr, by simp [hsid']⟩, by simp [htake, hstat]⟩

/-! ## Claim theorems -/

/-- Claim C2: the decision engine is a deterministic function of
(observedAddress, isPrivate, expectedAddress-or-absent) with this fixed
priority: private address wins (regardless of the configured expected
address, including when it equals the observed private address), then
missing expected address, then exact string match grants Present, else
mismatch; and the status is Present exactly when the reason is
`ip_matched`. -/
theorem decision_engine_priority_order (clientIp allowedIp : String)
    (isPriv : Bool) :
    (isPriv = true →
      attendanceDecision clientIp allowedIp isPriv = ("Absent", "private_ip"))
    ∧ (isPriv = false → allowedIp = "" →
      attendanceDecision clientIp allowedIp isPriv
        = ("Absent", "missing_expected_ip"))
    ∧ (isPriv = false → allowedIp ≠ "" → clientIp = allowedIp →
      attendanceDecision clientIp allowedIp isPriv = ("Present", "ip_matched"))
    ∧ (isPriv = false → allowedIp ≠ "" → clientIp ≠ allowedIp →
      attendanceDecision clientIp allowedIp isPriv = ("Absent", "ip_mismatch"))
    ∧ ((attendanceDecision clientIp allowedIp isPriv).1 = "Present" ↔
      (attendanceDecision clientIp allowedIp isPriv).2 = "ip_matched") := by
  unfold attendanceDecision
  refine ⟨?_, ?_, ?_, ?_, ?_⟩
  · intro h; simp [h]
  · intro h h2; simp [h, h2]
  · intro h h2 h3; simp [h, h2, h3]
  · intro h h2 h3; simp [h, h2, h3]
  · split_ifs <;> simp

/-- Witness for C2: a private observed address is marked Absent with
reason `private_ip` even when the configured expected address equals that
private address; the classifier itself classifies `192.168.1.5` as
private. -/
theorem decision_engine_priority_order_witness :
    isPrivateIp "192.168.1.5" = true ∧
      attendanceDecision "192.168.1.5" "192.168.1.5" (isPrivateIp "192.168.1.5")
        = ("Absent", "private_ip") :=
  ⟨by decide,
    (decision_engine_priority_order "192.168.1.5" "192.168.1.5"
      (isPrivateIp "192.168.1.5")).1 (by decide)⟩

/-- Claim C7: a write to the tabular store with the backing file absent
or the `Attendance` worksheet not locatable first creates the worksheet
with the exact header `ID, Name, Date, Time, IP Address, Status` (not an
error — `excelSave` is total); in every case exactly one data row with
the six fields in order `[id, name, date, time, ip, status]` is
appended, and the existing rows are preserved unchanged as a prefix. -/
theorem tabular_write_creates_header_and_appends_one_row
    (row : List String) (rows : List (List String))
    (sid name clientIp : String) (proxy : Bool)
    (allowedIp status reason : String) (isPriv : Bool) (db : Db)
    (now : Nat) (off : Int) (jsonOk : Bool) :
    excelHeader = ["ID", "Name", "Date", "Time", "IP Address", "Status"]
    ∧ excelSave .absent row = .sheet [excelHeader, row]
    ∧ excelSave .missingSheet row = .sheet [excelHeader, row]
    ∧ excelSave (.sheet rows) row = .sheet (rows ++ [row])
    ∧ (∃ rows2, excelSave (.sheet rows) row = .sheet rows2 ∧
        rows2.take rows.length = rows ∧ rows2.length = rows.length + 1)
    ∧ (markPersist sid name clientIp proxy allowedIp status reason isPriv db
          (.sheet rows) now off true jsonOk).excel
        = .sheet (rows ++ [[sid, name, isoDate now, localTimeStr now off,
            clientIp, status]]) := by
  refine ⟨rfl, rfl, rfl, rfl,
    ⟨rows ++ [row], rfl, by simp, by simp⟩, ?_⟩
  rw [markPersist_excel]
  simp [excelSave]

/-- Claim C8: loading the document store with the backing file missing
or its content unparseable yields the empty structure (empty users map,
empty attendance list) instead of an error; a load never fails (`loadDb`
is a total function, and parsed content passes through unchanged). -/
theorem load_missing_or_unparseable_yields_empty :
    loadDb .missing = emptyDb
    ∧ loadDb .unparseable = emptyDb
    ∧ (∀ db, loadDb (.parsed db) = db)
    ∧ emptyDb.users = (fun _ => none)
    ∧ emptyDb.attendance = [] :=
  ⟨rfl, rfl, fun _ => rfl, rfl, rfl⟩

/-- Claim C10: `setExpectedIp` overwrites exactly the target identity's
users entry, leaving every other identity's entry and the attendance
list unchanged; `addAttendance` appends exactly one record, leaving the
users map and all previously stored records unchanged. -/
theorem store_mutations_frame_conditions (db : Db) (sid ip now : String)
    (r : AttRec) :
    (setExpectedIp db sid ip now).users sid = some ⟨ip, now⟩
    ∧ (∀ k, k ≠ sid → (setExpectedIp db sid ip now).users k = db.users k)
    ∧ (setExpectedIp db sid ip now).attendance = db.attendance
    ∧ (addAttendance db r).attendance = db.attendance ++ [r]
    ∧ (addAttendance db r).users = db.users
    ∧ (addAttendance db r).attendance.take db.attendance.length
        = db.attendance := by
  refine ⟨by simp [setExpectedIp], fun k hk => by simp [setExpectedIp, hk],
    rfl, rfl, rfl, by simp [addAttendance]⟩

/-- Witness for C10: updating identity `A` leaves identity `B`'s
pre-existing entry readable and untouched. -/
theorem store_mutations_frame_conditions_witness :
    (setExpectedIp
        ⟨fun k => if k = "B" then some ⟨"1.2.3.4", "T1"⟩ else none, []⟩
        "A" "9.9.9.9" "T2").users "B" = some ⟨"1.2.3.4", "T1"⟩ :=
  ((store_mutations_frame_conditions
      ⟨fun k => if k = "B" then some ⟨"1.2.3.4", "T1"⟩ else none, []⟩
      "A" "9.9.9.9" "T2"
      ⟨"", "", "", "", "", none, false, false, none⟩).2.1 "B"
    (by decide)).trans rfl

/-! ## Concrete states used by witnesses and counterexamples -/

/-- A stored Present record of student `U002` on 2024-03-15 (UTC). -/
def presentRec : AttRec :=
  ⟨"2024-03-15T09:00:00.000Z", "U002", "Ada", "Present", "203.0.113.9",
    some "203.0.113.9", false, false, some "ip_matched"⟩

/-- Registry: `U002 ↦ 203.0.113.9`; no attendance history. -/
def dbU002 : Db :=
  ⟨fun k => if k = "U002" then some ⟨"203.0.113.9", "2024-03-15T00:00:00.000Z"⟩
    else none, []⟩

/-- Registry: `U002 ↦ 203.0.113.9`; one Present record on 2024-03-15. -/
def dbWithPresent : Db :=
  ⟨fun k => if k = "U002" then some ⟨"203.0.113.9", "2024-03-15T00:00:00.000Z"⟩
    else none, [presentRec]⟩

/-- Claim C1: if the identity's history already holds a Present record
whose timestamp falls on the current UTC day, a further submission whose
computed outcome is Present creates no record in either store and
returns the existing record's timestamp with `alreadyMarked = true`;
a submission whose computed outcome is Absent is never suppressed and
(when the document store write succeeds) always appends a record. -/
theorem duplicate_present_suppressed_absent_not (sid name clientIp : String)
    (proxy : Bool) (envIp : String) (db : Db) (excel : ExcelState)
    (now : Nat) (off : Int) (excelOk jsonOk : Bool)
    (hsid : sid ≠ "") (hname : name ≠ "") (hip : clientIp ≠ "") :
    ((markDecision db sid clientIp envIp).1 = "Present" →
      (∃ r ∈ db.attendance, r.student_id = sid ∧
          r.timestamp.take 10 = isoDate now ∧ r.status = "Present") →
      ∃ r ∈ db.attendance, r.student_id = sid ∧
        r.timestamp.take 10 = isoDate now ∧ r.status = "Present" ∧
        (markAttendance sid name clientIp proxy envIp db excel now off
            excelOk jsonOk).response = alreadyMarkedResp r.timestamp ∧
        (markAttendance sid name clientIp proxy envIp db excel now off
            excelOk jsonOk).db = db ∧
        (markAttendance sid name clientIp proxy envIp db excel now off
            excelOk jsonOk).excel = excel)
    ∧ ((markDecision db sid clientIp envIp).1 = "Absent" →
      (markAttendance sid name clientIp proxy envIp db excel now off
          excelOk jsonOk).response.alreadyMarked = none ∧
      (jsonOk = true →
        (markAttendance sid name clientIp proxy envIp db excel now off
            excelOk jsonOk).db.attendance
          = db.attendance ++
              [attRecordOf now sid name (markDecision db sid clientIp envIp).1
                clientIp (allowedIpOf db sid envIp) (isPrivateIp clientIp)
                proxy (markDecision db sid clientIp envIp).2])) := by
  constructor
  · intro hpres hex
    have hsome : (dupPresentToday db sid (isoDate now)).isSome = true :=
      (dupPresentToday_isSome_iff db sid (isoDate now)).mpr hex
    obtain ⟨r, hfind⟩ := Option.isSome_iff_exists.mp hsome
    obtain ⟨hmem, hsid', htake, hstat⟩ := dupPresentToday_some_facts _ _ _ _ hfind
    refine ⟨r, hmem, hsid', htake, hstat, ?_, ?_, ?_⟩ <;>
      rw [markAttendance_suppressed_eq sid name clientIp proxy envIp db excel
        now off excelOk jsonOk r hsid hname hip hfind hpres]
  · intro habs
    have hns : suppressedB db sid now (markDecision db sid clientIp envIp).1
        = false := by
      simp [suppressedB, habs]
    rw [markAttendance_eq_persist sid name clientIp proxy envIp db excel now
      off excelOk jsonOk hsid hname hip hns]
    constructor
    · rw [markPersist_response]
      cases jsonOk <;> rfl
    · intro hj
      subst hj
      rw [markPersist_db]
      simp [addAttendance]

/-- Witness for C1: with a Present record for `U002` already stored on
2024-03-15, a matching submission the same day is answered with
`alreadyMarked: true` and leaves the document store unchanged. -/
theorem duplicate_present_suppressed_absent_not_witness :
    (markAttendance "U002" "Ada" "203.0.113.9" false "" dbWithPresent
        (.sheet [excelHeader]) 1710497430 0 true true).response.alreadyMarked
      = some true
    ∧ (markAttendance "U002" "Ada" "203.0.113.9" false "" dbWithPresent
        (.sheet [excelHeader]) 1710497430 0 true true).db.attendance
      = dbWithPresent.attendance := by
  obtain ⟨r, hmem, hsid', htake, hstat, hresp, hdb, hex⟩ :=
    (duplicate_present_suppressed_absent_not "U002" "Ada" "203.0.113.9" false
      "" dbWithPresent (.sheet [excelHeader]) 1710497430 0 true true
      (by decide) (by decide) (by decide)).1 (by decide)
      ⟨presentRec, by decide, by decide, by decide, by decide⟩
  exact ⟨by rw [hresp]; rfl, by rw [hdb]⟩

/-- Claim C5 (confirmed): for a non-suppressed submission, a document
store append failure is fatal (the caller gets the 500 database-error
response and no record is committed), while the outcome of the tabular
write (`excelOk`, universally quantified here) never changes the
response: with the document store healthy the caller gets a success
response carrying the definite status and reason, and the document store
append happens regardless of the tabular outcome. -/
theorem document_store_failure_fatal_tabular_not (sid name clientIp : String)
    (proxy : Bool) (envIp : String) (db : Db) (excel : ExcelState)
    (now : Nat) (off : Int) (excelOk : Bool)
    (hsid : sid ≠ "") (hname : name ≠ "") (hip : clientIp ≠ "")
    (hns : suppressedB db sid now (markDecision db sid clientIp envIp).1
      = false) :
    ((markAttendance sid name clientIp proxy envIp db excel now off excelOk
        false).response = dbErrorResp
      ∧ dbErrorResp.httpStatus = 500
      ∧ (markAttendance sid name clientIp proxy envIp db excel now off excelOk
          false).db = db)
    ∧ ((markAttendance sid name clientIp proxy envIp db excel now off excelOk
          true).response.success = true
      ∧ (markAttendance sid name clientIp proxy envIp db excel now off excelOk
          true).response.status = some (markDecision db sid clientIp envIp).1
      ∧ (markAttendance sid name clientIp proxy envIp db excel now off excelOk
          true).response.reason
        = some (some (markDecision db sid clientIp envIp).2)
      ∧ (markAttendance sid name clientIp proxy envIp db excel now off excelOk
          true).db.attendance
        = db.attendance ++
            [attRecordOf now sid name (markDecision db sid clientIp envIp).1
              clientIp (allowedIpOf db sid envIp) (isPrivateIp clientIp)
              proxy (markDecision db sid clientIp envIp).2]) := by
  constructor
  · rw [markAttendance_eq_persist sid name clientIp proxy envIp db excel now
      off excelOk false hsid hname hip hns]
    exact ⟨by rw [markPersist_response]; rfl, rfl,
      by rw [markPersist_db]; rfl⟩
  · rw [markAttendance_eq_persist sid name clientIp proxy envIp db excel now
      off excelOk true hsid hname hip hns]
    refine ⟨?_, ?_, ?_, ?_⟩
    · rw [markPersist_response]; rfl
    · rw [markPersist_response]; rfl
    · rw [markPersist_response]; rfl
    · rw [markPersist_db]; simp [addAttendance]

/-- Witness for C5: with no expected address configured anywhere, a
submission computes Absent; a failing document store write yields the
500 error even though the tabular write also failed first, and a healthy
document store yields a success response with the definite status. -/
theorem document_store_failure_fatal_tabular_not_witness :
    (markAttendance "U001" "Bo" "198.51.100.7" false "" emptyDb .absent
        1710497430 0 false false).response = dbErrorResp
    ∧ (markAttendance "U001" "Bo" "198.51.100.7" false "" emptyDb .absent
        1710497430 0 false true).response.success = true := by
  refine ⟨?_, ?_⟩
  · exact (document_store_failure_fatal_tabular_not "U001" "Bo" "198.51.100.7"
      false "" emptyDb .absent 1710497430 0 false (by decide) (by decide)
      (by decide) (by decide)).1.1
  · exact (document_store_failure_fatal_tabular_not "U001" "Bo" "198.51.100.7"
      false "" emptyDb .absent 1710497430 0 false (by decide) (by decide)
      (by decide) (by decide)).2.1

/-- Counterexample to claim C3 as stated: at a concrete non-suppressed
submission whose tabular write fails and whose document store write
succeeds, the route's response is *identical* to the response of the
same submission with the tabular write succeeding — the response (whose
model lists every field the route ever emits) carries no degraded-mode
flag or any other indication of the tabular failure. -/
theorem tabular_failure_no_degraded_flag :
    (markAttendance "U002" "Ada" "203.0.113.9" false "" dbU002
        (.sheet [excelHeader]) 1710497430 0 false true).response
      = (markAttendance "U002" "Ada" "203.0.113.9" false "" dbU002
          (.sheet [excelHeader]) 1710497430 0 true true).response
    ∧ (markAttendance "U002" "Ada" "203.0.113.9" false "" dbU002
        (.sheet [excelHeader]) 1710497430 0 false true).response.success
      = true := by
  decide

/-- Claim C3 as amended: for every non-suppressed submission where the
tabular append fails and the document store append succeeds, the
operation still succeeds, but the tabular failure is not surfaced to the
caller at all: the response equals the all-success response verbatim
(it is only logged server-side; no degraded-mode flag exists). -/
theorem tabular_failure_success_response_unchanged (sid name clientIp : String)
    (proxy : Bool) (envIp : String) (db : Db) (excel : ExcelState)
    (now : Nat) (off : Int)
    (hsid : sid ≠ "") (hname : name ≠ "") (hip : clientIp ≠ "")
    (hns : suppressedB db sid now (markDecision db sid clientIp envIp).1
      = false) :
    (markAttendance sid name clientIp proxy envIp db excel now off false
        true).response
      = successResp (markDecision db sid clientIp envIp).1
          (markDecision db sid clientIp envIp).2 clientIp
          (allowedIpOf db sid envIp) (isPrivateIp clientIp) proxy
    ∧ (markAttendance sid name clientIp proxy envIp db excel now off false
        true).response
      = (markAttendance sid name clientIp proxy envIp db excel now off true
          true).response
    ∧ (markAttendance sid name clientIp proxy envIp db excel now off false
        true).response.success = true := by
  rw [markAttendance_eq_persist sid name clientIp proxy envIp db excel now
    off false true hsid hname hip hns,
    markAttendance_eq_persist sid name clientIp proxy envIp db excel now
    off true true hsid hname hip hns]
  rw [markPersist_response, markPersist_response]
  exact ⟨rfl, rfl, rfl⟩

/-- Witness for C3's amended theorem at the same concrete submission as
the counterexample. -/
theorem tabular_failure_success_response_unchanged_witness :
    (markAttendance "U002" "Ada" "203.0.113.9" false "" dbU002
        (.sheet [excelHeader]) 1710497430 0 false true).response
      = successResp "Present" "ip_matched" "203.0.113.9" "203.0.113.9"
          false false :=
  (tabular_failure_success_response_unchanged "U002" "Ada" "203.0.113.9"
    false "" dbU002 (.sheet [excelHeader]) 1710497430 0 (by decide)
    (by decide) (by decide) (by decide)).1

/-- No expected-address entries; one stored Present record. -/
def dbOneRec : Db := ⟨fun _ => none, [presentRec]⟩

lemma markAttendance_excel_indep (sid name clientIp : String) (proxy : Bool)
    (envIp : String) (db : Db) (e1 e2 : ExcelState) (now : Nat) (off : Int)
    (excelOk jsonOk : Bool) :
    (markAttendance sid name clientIp proxy envIp db e1 now off excelOk
        jsonOk).response
      = (markAttendance sid name clientIp proxy envIp db e2 now off excelOk
          jsonOk).response
    ∧ (markAttendance sid name clientIp proxy envIp db e1 now off excelOk
        jsonOk).db
      = (markAttendance sid name clientIp proxy envIp db e2 now off excelOk
          jsonOk).db := by
  unfold markAttendance
  split
  · exact ⟨rfl, rfl⟩
  · split
    · exact ⟨rfl, rfl⟩
    · cases hfind : dupPresentToday db sid (isoDate now) with
      | some r =>
        simp only [hfind]
        split
        · exact ⟨rfl, rfl⟩
        · exact ⟨by rw [markPersist_response, markPersist_response],
            by rw [markPersist_db, markPersist_db]⟩
      | none =>
        simp only [hfind]
        exact ⟨by rw [markPersist_response, markPersist_response],
          by rw [markPersist_db, markPersist_db]⟩

/-- Counterexample to claim C4 as stated: with the tabular store's
backing file deleted (`.absent`) and one record persisted in the
document store, the records route returns the empty list — not the
document-store-derived records — because the `existsSync` guard means no
exception is thrown and the fallback branch is never reached. -/
theorem absent_tabular_file_returns_empty :
    getRecords .absent dbOneRec 0 = []
    ∧ dbOneRec.attendance ≠ []
    ∧ getRecords .absent dbOneRec 0
      ≠ (getAllAttendance dbOneRec).map (fallbackEntry 0) := by
  decide

/-- Claim C4 as amended: when the tabular file exists but its content
cannot be parsed, the reporting read falls back to the document store
and returns one entry per persisted record, re-deriving `date` as the
UTC date component of the stored timestamp and `time` as its local-time
rendering; when the file has been deleted, the route returns the empty
list; and the mark route's history check always reads the document
store, so its response and document-store effect are independent of the
tabular store's state. -/
theorem corrupted_tabular_falls_back_to_document_store (db : Db) (off : Int) :
    getRecords .corrupted db off = (getAllAttendance db).map (fallbackEntry off)
    ∧ (getRecords .corrupted db off).length = db.attendance.length
    ∧ getRecords .absent db off = []
    ∧ (∀ r t, parseIso r.timestamp = some t →
        fallbackEntry off r
          = ⟨r.student_id, r.student_name, isoDate t, localTimeStr t off,
              r.clientIp, r.status⟩)
    ∧ (∀ (sid name clientIp : String) (proxy : Bool) (envIp : String)
        (dbx : Db) (e1 e2 : ExcelState) (now : Nat) (excelOk jsonOk : Bool),
        (markAttendance sid name clientIp proxy envIp dbx e1 now off excelOk
            jsonOk).response
          = (markAttendance sid name clientIp proxy envIp dbx e2 now off
              excelOk jsonOk).response
        ∧ (markAttendance sid name clientIp proxy envIp dbx e1 now off excelOk
            jsonOk).db
          = (markAttendance sid name clientIp proxy envIp dbx e2 now off
              excelOk jsonOk).db) := by
  refine ⟨rfl, by simp [getRecords, getAllAttendance], rfl, ?_, ?_⟩
  · intro r t h
    unfold fallbackEntry
    rw [h]
  · intro sid name clientIp proxy envIp dbx e1 e2 now excelOk jsonOk
    exact markAttendance_excel_indep sid name clientIp proxy envIp dbx e1 e2
      now off excelOk jsonOk

/-- Witness for C4's amended theorem: the stored Present record of
2024-03-15T09:00:00Z is returned by the corrupted-file fallback with its
date re-derived as `2024-03-15` and its time as `09:00:00` (UTC server). -/
theorem corrupted_tabular_falls_back_to_document_store_witness :
    fallbackEntry 0 presentRec
      = ⟨"U002", "Ada", "2024-03-15", "09:00:00", "203.0.113.9", "Present"⟩ := by
  have h := (corrupted_tabular_falls_back_to_document_store dbOneRec 0).2.2.2.1
    presentRec 1710493200 (by decide)
  rw [h]
  decide

/-- Counterexample to claim C6 as stated: a row written with
`displayName = " Ada "` is read back by the records route as `"Ada"` —
the read path trims every cell, so the textual fields are not reproduced
byte-for-byte. -/
theorem roundtrip_trims_whitespace :
    getRecords
        (excelSave (.sheet [excelHeader])
          ["U001", " Ada ", "2024-03-15", "09:00:00", "203.0.113.9",
            "Present"]) emptyDb 0
      = [⟨"U001", "Ada", "2024-03-15", "09:00:00", "203.0.113.9", "Present"⟩]
    ∧ ("Ada" : String) ≠ " Ada " := by
  decide

/-- Claim C6 as amended: the round trip through the tabular store
reproduces each of the six fields up to JavaScript string trimming; when
every written field is invariant under trimming (and the row passes the
id-or-name defensive skip), the read-back is exact, byte for byte: the
records returned after the write are exactly the records before it plus
the written record. -/
theorem roundtrip_exact_for_trimmed_fields (id name date time ip status : String)
    (rest : List (List String)) (db : Db) (off : Int)
    (hid : jsTrim id = id) (hname : jsTrim name = name)
    (hdate : jsTrim date = date) (htime : jsTrim time = time)
    (hip : jsTrim ip = ip) (hstatus : jsTrim status = status)
    (hne : id ≠ "" ∨ name ≠ "") :
    parseRow [id, name, date, time, ip, status]
      = some ⟨id, name, date, time, ip, status⟩
    ∧ getRecords
        (excelSave (.sheet (excelHeader :: rest))
          [id, name, date, time, ip, status]) db off
      = getRecords (.sheet (excelHeader :: rest)) db off ++
          [⟨id, name, date, time, ip, status⟩] := by
  have hcell : ∀ s : String, jsTrim s = s →
      (if s = "" then "" else jsTrim s) = s := by
    intro s hs
    rcases eq_or_ne s "" with h | h
    · simp [h]
    · simp [h, hs]
  have h0 : readCell [id, name, date, time, ip, status] 0 = id := by
    simpa [readCell] using hcell id hid
  have h1 : readCell [id, name, date, time, ip, status] 1 = name := by
    simpa [readCell] using hcell name hname
  have h2 : readCell [id, name, date, time, ip, status] 2 = date := by
    simpa [readCell] using hcell date hdate
  have h3 : readCell [id, name, date, time, ip, status] 3 = time := by
    simpa [readCell] using hcell time htime
  have h4 : readCell [id, name, date, time, ip, status] 4 = ip := by
    simpa [readCell] using hcell ip hip
  have h5 : readCell [id, name, date, time, ip, status] 5 = status := by
    simpa [readCell] using hcell status hstatus
  have hrow : parseRow [id, name, date, time, ip, status]
      = some ⟨id, name, date, time, ip, status⟩ := by
    unfold parseRow
    rw [h0, h1, h2, h3, h4, h5, if_pos hne]
  refine ⟨hrow, ?_⟩
  simp [getRecords, excelSave, parseSheet, List.filterMap_append, hrow]

/-- Witness for C6's amended theorem: a whitespace-free record
round-trips exactly. -/
theorem roundtrip_exact_for_trimmed_fields_witness :
    parseRow ["U001", "Ada", "2024-03-15", "09:00:00", "203.0.113.9",
        "Present"]
      = some ⟨"U001", "Ada", "2024-03-15", "09:00:00", "203.0.113.9",
          "Present"⟩ :=
  (roundtrip_exact_for_trimmed_fields "U001" "Ada" "2024-03-15" "09:00:00"
    "203.0.113.9" "Present" [] emptyDb 0 (by decide) (by decide) (by decide)
    (by decide) (by decide) (by decide) (Or.inl (by decide))).1

/-- Claim C9 (implicit): the Date cell written to the tabular store is
the UTC calendar-date component of the decision instant (the ISO string
prefix, as the stored timestamp's structure shows), the Time cell is the
time of day in the server's local timezone, and the duplicate check
compares the same UTC date component; consequently, with a nonzero
timezone offset the stored Date and Time are components of the
renderings of two different instants and need not be mutually
consistent. -/
theorem date_utc_time_local_mixed_renderings (sid name clientIp : String)
    (proxy : Bool) (envIp : String) (db : Db) (rows : List (List String))
    (now : Nat) (off : Int) (jsonOk : Bool)
    (hsid : sid ≠ "") (hname : name ≠ "") (hip : clientIp ≠ "")
    (hns : suppressedB db sid now (markDecision db sid clientIp envIp).1
      = false) :
    (markAttendance sid name clientIp proxy envIp db (.sheet rows) now off
        true jsonOk).excel
      = .sheet (rows ++ [[sid, name, isoDate now, localTimeStr now off,
          clientIp, (markDecision db sid clientIp envIp).1]])
    ∧ isoDateTime now
      = isoDate now ++ "T" ++ timeOfDayStr (now % 86400) ++ ".000Z"
    ∧ (suppressedB db sid now "Present" = true ↔
        ∃ r ∈ db.attendance, r.student_id = sid ∧
          r.timestamp.take 10 = isoDate now ∧ r.status = "Present")
    ∧ (∃ (t : Nat) (o : Int), o ≠ 0 ∧
        localTimeStr t o ≠ timeOfDayStr (t % 86400) ∧
        localTimeStr t o = timeOfDayStr ((((t : Int) + o * 60) % 86400).toNat)) := by
  refine ⟨?_, rfl, ?_, ⟨0, 330, by decide, by decide, by decide⟩⟩
  · rw [markAttendance_eq_persist sid name clientIp proxy envIp db
      (.sheet rows) now off true jsonOk hsid hname hip hns,
      markPersist_excel]
    simp [excelSave]
  · rw [show suppressedB db sid now "Present"
        = (dupPresentToday db sid (isoDate now)).isSome by
      simp [suppressedB]]
    exact dupPresentToday_isSome_iff db sid (isoDate now)

/-- Witness for C9: at instant 2024-03-15T10:10:30Z with the server
timezone at UTC+05:30, the written row carries Date `2024-03-15` (UTC)
but Time `15:40:30` (local), the rendering of a different instant than
the UTC time of day `10:10:30`. -/
theorem date_utc_time_local_mixed_renderings_witness :
    (markAttendance "U002" "Ada" "203.0.113.9" false "" dbU002
        (.sheet [excelHeader]) 1710497430 330 true true).excel
      = .sheet [excelHeader,
          ["U002", "Ada", "2024-03-15", "15:40:30", "203.0.113.9",
            "Present"]] :=
  ((date_utc_time_local_mixed_renderings "U002" "Ada" "203.0.113.9" false ""
      dbU002 [excelHeader] 1710497430 330 true (by decide) (by decide)
      (by decide) (by decide)).1).trans (by decide)

end IPAttendance
